import Mathlib

/-!
Shallow embedding of the transcription demo client
(`src/lib/api.ts` and the `TranscriptionClient` component / README of the
repository) and proofs about its behaviour.

Conventions of the embedding:
* JavaScript numbers that the code manipulates exactly (float samples,
  timestamps) are modelled as `ℚ` / `ℤ`; JSON values as an inductive `Json`.
* An `Int16Array` store is modelled by truncation toward zero followed by
  wrap-around to the signed 16-bit range, matching the ECMAScript ToInt16
  conversion.
* Fallible operations return `Except`/`Option`; the browser environment
  (HTTP response, microphone grant, socket events) is passed in explicitly,
  and the React `useRef`/`useState` cells form an explicit `Model` record.
-/

namespace Transcription

/-- JSON values as delivered by `JSON.parse`.  Numeric literals in the
messages of this protocol are integers (`is_final` is in fact a boolean),
so numbers are modelled as `ℤ`. -/
inductive Json where
  | null : Json
  | bool : Bool → Json
  | num : Int → Json
  | str : String → Json
  | arr : List Json → Json
  | obj : List (String × Json) → Json

/-- JavaScript truthiness of a JSON value (`undefined` is handled at the
`Option Json` level by `otruthy`). -/
def Json.truthy : Json → Bool
  | .null => false
  | .bool b => b
  | .num n => n != 0
  | .str s => s != ""
  | .arr _ => true
  | .obj _ => true

/-- Truthiness of a possibly-`undefined` value. -/
def otruthy : Option Json → Bool
  | none => false
  | some j => j.truthy

/-- Property access `v[k]`: defined field lookup on objects, `undefined`
(i.e. `none`) on every other value. -/
def jlookup : Json → String → Option Json
  | .obj fs, k => fs.lookup k
  | _, _ => none

/-- Index access `v[0]` as used by `alternatives?.[0]`: first element of an
array, the field keyed `"0"` on an object, `undefined` otherwise. -/
def jindex0 : Json → Option Json
  | .arr (x :: _) => some x
  | .arr [] => none
  | .obj fs => fs.lookup "0"
  | _ => none

/-- `Math.max(-1, Math.min(1, x))` from `processor.onaudioprocess`. -/
def clampUnit (q : ℚ) : ℚ := max (-1) (min 1 q)

/-- Truncation toward zero, the rounding ECMAScript applies when a number is
stored into an `Int16Array` element. -/
def truncRat (q : ℚ) : ℤ := if 0 ≤ q then ⌊q⌋ else ⌈q⌉

/-- Wrap-around of an integer to the signed 16-bit range, the second half of
the ECMAScript ToInt16 conversion. -/
def wrap16 (n : ℤ) : ℤ := (n + 32768) % 65536 - 32768

/-- The value stored for one captured sample by
`pcmData[i] = Math.max(-1, Math.min(1, inputData[i])) * 0x7FFF`
(`0x7FFF = 32767`). -/
def pcmSample (q : ℚ) : ℤ := wrap16 (truncRat (clampUnit q * 32767))

/-- The two bytes (low first) of the little-endian 16-bit encoding of a
stored sample, as they appear in the `Int16Array`'s backing buffer. -/
def int16BytesLE (n : ℤ) : List ℕ := [((n % 65536) % 256).toNat, ((n % 65536) / 256).toNat]

/-- The byte sequence of the binary frame sent by `ws.send(pcmData.buffer)`:
each captured sample converted, two bytes per sample little-endian, in
capture order. -/
def pcmFrameBytes (frame : List ℚ) : List ℕ :=
  (frame.map (fun q => int16BytesLE (pcmSample q))).flatten

/-- The spec's formula `round_toward_zero(clamp(s, -1.0, 1.0) * 32767)`,
written from the spec's words for comparison with `pcmSample`. -/
def specPcmFormula (q : ℚ) : ℤ := truncRat (max (-1) (min 1 q) * 32767)

/-- Escape of one character inside a JSON string literal (quote and
backslash, the only escapes the bodies in this development need). -/
def jsonEscapeChar (c : Char) : String :=
  if c = '\\' then "\\\\" else if c = '"' then "\\\"" else String.singleton c

/-- Escape of a string for `JSON.stringify`. -/
def jsonEscape (s : String) : String := String.join (s.data.map jsonEscapeChar)

mutual

/-- Model of `JSON.stringify` on parsed JSON values. -/
def Json.stringify : Json → String
  | .null => "null"
  | .bool true => "true"
  | .bool false => "false"
  | .num n => toString n
  | .str s => "\"" ++ jsonEscape s ++ "\""
  | .arr xs => "[" ++ stringifyItems xs ++ "]"
  | .obj fs => "\x7b" ++ stringifyFields fs ++ "\x7d"

/-- Comma-separated stringification of array elements. -/
def stringifyItems : List Json → String
  | [] => ""
  | [j] => Json.stringify j
  | j :: j2 :: rest => Json.stringify j ++ "," ++ stringifyItems (j2 :: rest)

/-- Comma-separated stringification of object fields. -/
def stringifyFields : List (String × Json) → String
  | [] => ""
  | [(k, v)] => "\"" ++ jsonEscape k ++ "\":" ++ Json.stringify v
  | (k, v) :: f :: rest =>
      "\"" ++ jsonEscape k ++ "\":" ++ Json.stringify v ++ "," ++ stringifyFields (f :: rest)

end

/-- The module-level configuration of `src/lib/api.ts`: `API_BASE_URL` and
`BEARER_TOKEN`, after the `process.env... || default` fallbacks have been
applied. -/
structure ApiConfig where
  API_BASE_URL : String
  BEARER_TOKEN : String

/-- The bearer token actually used: `const token = authToken || BEARER_TOKEN`
(`authToken` is `string | undefined`; the empty string is falsy). -/
def resolvedBearer (cfg : ApiConfig) (authToken : Option String) : String :=
  match authToken with
  | some t => if t = "" then cfg.BEARER_TOKEN else t
  | none => cfg.BEARER_TOKEN

/-- The HTTP request issued by `fetchWebSocketToken`. -/
structure TokenRequest where
  url : String
  method : String
  authorization : String
  contentType : String
  body : String

/-- The request `fetch(url, ...)` sends: `POST {API_BASE_URL}/api/v1/auth/grant`
with the bearer header and the JSON body naming the websocket grant type. -/
def tokenRequest (cfg : ApiConfig) (authToken : Option String) : TokenRequest :=
  { url := cfg.API_BASE_URL ++ "/api/v1/auth/grant"
    method := "POST"
    authorization := "Bearer " ++ resolvedBearer cfg authToken
    contentType := "application/json"
    body := "\x7b\"type\":\"websocket\"\x7d" }

/-- A settled HTTP response as the browser presents it to the code:
`bodyJson` is the result of `response.json()` on the body (`none` when the
body is not valid JSON, in which case `response.json()` throws), `bodyText`
the result of `response.text()`. -/
structure HttpResponse where
  status : ℕ
  statusText : String
  contentTypeJson : Bool
  bodyText : String
  bodyJson : Option Json

/-- ECMAScript `Response.ok`: status in the range 200–299. -/
def HttpResponse.ok (r : HttpResponse) : Bool := 200 ≤ r.status && r.status < 300

/-- Placeholder for the engine-generated message of the exception
`response.json()` throws on malformed JSON; its exact text is
environment-defined and irrelevant to every claim. -/
def jsonParseExceptionText : String := "Unexpected end of JSON input"

/-- The `errorData` computed in the non-ok branch of `fetchWebSocketToken`,
already converted to the string interpolated into the thrown message
(`typeof errorData === "string" ? errorData : JSON.stringify(errorData)`). -/
def errorDataString (r : HttpResponse) : String :=
  if r.contentTypeJson then
    match r.bodyJson with
    | some (.str s) => s
    | some j => j.stringify
    | none => "Could not parse error response"
  else r.bodyText

/-- Outcome of `fetchWebSocketToken` for a settled response `r`: the thrown
error's message, or the parsed body returned as-is (the success branch
performs no validation of the Credential shape). -/
def tokenResponse (r : HttpResponse) : Except String Json :=
  if r.ok then
    match r.bodyJson with
    | some data => .ok data
    | none => .error ("Unexpected error fetching WebSocket token: " ++ jsonParseExceptionText)
  else
    .error ("Failed to fetch WebSocket token: " ++ toString r.status ++ " " ++
      r.statusText ++ ". Error: " ++ errorDataString r)

/-- Full model of `fetchWebSocketToken`: the request it issues and, given
the settled response, the result it returns or the error it throws. -/
def fetchWebSocketToken (cfg : ApiConfig) (authToken : Option String)
    (r : HttpResponse) : TokenRequest × Except String Json :=
  (tokenRequest cfg authToken, tokenResponse r)

/-- Whether an outcome is a thrown error. -/
def exceptIsError : Except String Json → Bool
  | .error _ => true
  | .ok _ => false

/-- The message of a thrown error (the empty string on success). -/
def exceptErrorText : Except String Json → String
  | .error e => e
  | .ok _ => ""

/-- Whether a JSON value has the Credential shape of `WebSocketToken`
(string fields `access_token`, `expires_at`, `key_type`), written from the
spec's words; the source never checks this. -/
def isCredentialShape : Json → Bool
  | .obj fs =>
      (match fs.lookup "access_token" with | some (.str _) => true | _ => false) &&
      (match fs.lookup "expires_at" with | some (.str _) => true | _ => false) &&
      (match fs.lookup "key_type" with | some (.str _) => true | _ => false)
  | _ => false

/-- A mocked HTTP 200 response whose valid-JSON body is not of the
Credential shape. -/
def respShapeless : HttpResponse :=
  { status := 200, statusText := "OK", contentTypeJson := true,
    bodyText := "\x7b\x7d", bodyJson := some (Json.obj []) }

/-- A mocked HTTP 401 response with JSON body carrying an error text. -/
def resp401 : HttpResponse :=
  { status := 401, statusText := "Unauthorized", contentTypeJson := true,
    bodyText := "\x7b\"error\":\"invalid token\"\x7d",
    bodyJson := some (Json.obj [("error", Json.str "invalid token")]) }

/-- Substring containment on strings, used to state that an error message
embeds a given text. -/
def containsText (pat s : String) : Prop := pat.data <:+: s.data

/-- Connection state of the session controller
(`type ConnectionState = "idle" | "connecting" | "connected" | "error"`). -/
inductive ConnectionState where
  | idle | connecting | connected | error
deriving DecidableEq

/-- The `readyState` of a `WebSocket` object
(CONNECTING / OPEN / CLOSING / CLOSED). -/
inductive WsReadyState where
  | connectingWs | openWs | closingWs | closedWs
deriving DecidableEq

/-- The credential returned by the grant endpoint
(`interface WebSocketToken`); `expires_at` is the ISO timestamp modelled as
an integral instant so that `new Date(expires_at) <= new Date()` becomes an
integer comparison. -/
structure WebSocketToken where
  access_token : String
  expires_at : ℤ
  key_type : String
deriving DecidableEq

/-- The mutable cells of `TranscriptionClient`: the `useState` values
(`connectionState`, `transcript`, `interimTranscript`) and the `useRef`
handles (`wsTokenRef`, `audioStreamRef`, `audioContextRef`,
`audioProcessorRef`, `wsRef`); a held ref is `true`/`some`, a `null` ref is
`false`/`none`, and the socket ref carries its `readyState`. -/
structure Model where
  connectionState : ConnectionState
  transcript : List Json
  interimTranscript : Json
  wsToken : Option WebSocketToken
  audioStream : Bool
  audioContext : Bool
  audioProcessor : Bool
  ws : Option WsReadyState

/-- Handler `ws.onopen`: the browser marks the socket OPEN and the handler
sets the connection state to `connected`. -/
def wsOnOpen (s : Model) : Model :=
  { s with ws := s.ws.map (fun _ => .openWs), connectionState := .connected }

/-- Handler `ws.onerror`: sets the connection state to `error`. -/
def wsOnError (s : Model) : Model :=
  { s with connectionState := .error }

/-- Handler `ws.onclose`: the browser marks the socket CLOSED and the
handler body only sets the connection state to `idle` (it releases
nothing else). -/
def wsOnClose (s : Model) : Model :=
  { s with ws := s.ws.map (fun _ => .closedWs), connectionState := .idle }

/-- The extraction `data.channel?.alternatives?.[0]?.transcript`
(optional chaining yields `none` wherever JavaScript yields `undefined`). -/
def transcriptOf (data : Json) : Option Json :=
  ((jlookup data "channel").bind (fun c => jlookup c "alternatives")).bind
    (fun a => (jindex0 a).bind (fun x => jlookup x "transcript"))

/-- Handler `ws.onmessage` applied to the `JSON.parse` outcome of one frame
(`none` when parsing threw: the frame is logged and dropped).  A truthy
`error` field returns early; a truthy transcript is appended to the
finalized list (clearing the interim segment) when `is_final` is truthy and
otherwise replaces the interim segment; anything else leaves the state
unchanged. -/
def wsOnMessage (parsed : Option Json) (s : Model) : Model :=
  match parsed with
  | none => s
  | some data =>
    if otruthy (jlookup data "error") then s
    else
      match transcriptOf data with
      | some t =>
        if t.truthy then
          if otruthy (jlookup data "is_final") then
            { s with transcript := s.transcript ++ [t], interimTranscript := .str "" }
          else
            { s with interimTranscript := t }
        else s
      | none => s

/-- The mocked environment one `initializeTranscription` call runs in:
the current time, the outcome `fetchWebSocketToken` would have (when it is
called at all), whether `getUserMedia` grants the microphone, and whether
the created socket's first event is `open` (`true`) or `error` (`false`). -/
structure Env where
  now : ℤ
  fetchResult : Except String WebSocketToken
  micGranted : Bool
  socketOpens : Bool

/-- What one `initializeTranscription` call attempted: how many HTTP
requests went to the grant endpoint, whether `getUserMedia` was invoked,
and whether a `WebSocket` was constructed. -/
structure Attempts where
  httpRequests : ℕ
  micRequested : Bool
  socketCreated : Bool
deriving DecidableEq

/-- The cached-credential test of step 1:
`!wsToken || new Date(wsToken.expires_at) <= new Date()` demands a fetch,
so the cache is reused exactly when it exists and its expiry is strictly in
the future. -/
def cachedValid (s : Model) (now : ℤ) : Bool :=
  match s.wsToken with
  | some c => decide (now < c.expires_at)
  | none => false

/-- Step 1 of `initializeTranscription`: reuse the cached token when still
valid, otherwise call `fetchWebSocketToken` (counting the HTTP request) and
store its result in `wsTokenRef` before anything else happens. -/
def credStep (env : Env) (s : Model) : Except String (Model × WebSocketToken) × ℕ :=
  match s.wsToken with
  | some c =>
    if env.now < c.expires_at then (.ok (s, c), 0)
    else
      match env.fetchResult with
      | .ok c2 => (.ok ({ s with wsToken := some c2 }, c2), 1)
      | .error e => (.error e, 1)
  | none =>
    match env.fetchResult with
    | .ok c2 => (.ok ({ s with wsToken := some c2 }, c2), 1)
    | .error e => (.error e, 1)

/-- The body of `initializeTranscription` up to the end of its `try` block:
state `connecting`; obtain a credential (abort to `error` on failure);
request the microphone (abort to `error` on denial); construct the
`WebSocket` (readyState CONNECTING) and then the audio pipeline.  Socket
events are delivered afterwards (see `runStart`). -/
def initializeTranscription (env : Env) (s : Model) : Model × Attempts :=
  let s0 := { s with connectionState := ConnectionState.connecting }
  match credStep env s0 with
  | (.error _, n) =>
      ({ s0 with connectionState := .error },
       { httpRequests := n, micRequested := false, socketCreated := false })
  | (.ok (s1, _c), n) =>
      if env.micGranted then
        ({ s1 with audioStream := true, ws := some .connectingWs,
                   audioContext := true, audioProcessor := true },
         { httpRequests := n, micRequested := true, socketCreated := true })
      else
        ({ s1 with connectionState := .error },
         { httpRequests := n, micRequested := true, socketCreated := false })

/-- One whole mocked `start()`: run `initializeTranscription` and, when a
socket was created, deliver its first event (`open` or `error`). -/
def runStart (env : Env) (s : Model) : Model × Attempts :=
  let r := initializeTranscription env s
  if r.2.socketCreated then
    (if env.socketOpens then wsOnOpen r.1 else wsOnError r.1, r.2)
  else r

/-- Whether step 1 of `initializeTranscription` succeeds in environment
`env` from state `s` (cache hit, or a successful fetch). -/
def credentialOk (env : Env) (s : Model) : Bool :=
  cachedValid s env.now ||
    (match env.fetchResult with | .ok _ => true | .error _ => false)

/-- The function `stopTranscription`: null-guarded release of the audio
processor, the audio context and the microphone tracks; the socket is
closed and its ref nulled only when its `readyState` is OPEN; finally the
connection state is forced to `idle`. -/
def stopTranscription (s : Model) : Model :=
  let s1 := if s.audioProcessor then { s with audioProcessor := false } else s
  let s2 := if s1.audioContext then { s1 with audioContext := false } else s1
  let s3 := if s2.audioStream then { s2 with audioStream := false } else s2
  let s4 :=
    match s3.ws with
    | some .openWs => { s3 with ws := none }
    | _ => s3
  { s4 with connectionState := ConnectionState.idle }

/-- The function `clearTranscript`: empties the finalized list and the
interim segment. -/
def clearTranscript (s : Model) : Model :=
  { s with transcript := [], interimTranscript := .str "" }

/-- A state in which every resource is held while the socket is still
CONNECTING (reachable: `stop` clicked right after `start`, before the
`open` event). -/
def heldConnectingModel : Model :=
  { connectionState := .connecting, transcript := [], interimTranscript := .str "",
    wsToken := none, audioStream := true, audioContext := true,
    audioProcessor := true, ws := some .connectingWs }

/-- A connected state holding every resource with a non-empty interim
segment. -/
def heldOpenModel : Model :=
  { connectionState := .connected, transcript := [], interimTranscript := .str "hi",
    wsToken := none, audioStream := true, audioContext := true,
    audioProcessor := true, ws := some .openWs }

/-- An inbound message whose transcript field is present but the empty
string, with the given `is_final` value. -/
def emptyTranscriptMsg (isf : Json) : Json :=
  .obj [("channel", .obj [("alternatives", .arr [.obj [("transcript", .str "")]])]),
        ("is_final", isf)]

/-- An inbound message of the same shape but with no transcript field at
all. -/
def noTranscriptMsg (isf : Json) : Json :=
  .obj [("channel", .obj [("alternatives", .arr [.obj []])]), ("is_final", isf)]

/-- A well-formed final message carrying the transcript "hi there". -/
def finalHiMsg : Json :=
  .obj [("channel", .obj [("alternatives", .arr [.obj [("transcript", .str "hi there")]])]),
        ("is_final", .bool true)]

/-- The initial component state: idle, empty buffers, nothing held. -/
def baseModel : Model :=
  { connectionState := .idle, transcript := [], interimTranscript := .str "",
    wsToken := none, audioStream := false, audioContext := false,
    audioProcessor := false, ws := none }

/-- A fresh credential expiring at instant 100. -/
def tokA : WebSocketToken :=
  { access_token := "tokA", expires_at := 100, key_type := "websocket" }

/-- A later credential expiring at instant 300. -/
def tokB : WebSocketToken :=
  { access_token := "tokB", expires_at := 300, key_type := "websocket" }

/-- A fully successful mocked environment at instant 0 granting `tokA`. -/
def startEnv : Env :=
  { now := 0, fetchResult := .ok tokA, micGranted := true, socketOpens := true }

/-- A mocked environment at instant 50, within `tokA`'s validity window;
its fetch outcome is an error precisely to show it is never consulted. -/
def midEnv : Env :=
  { now := 50, fetchResult := .error "endpoint must not be called",
    micGranted := true, socketOpens := true }

/-- A mocked environment at instant 150, after `tokA` expired, granting
`tokB`. -/
def lateEnv : Env :=
  { now := 150, fetchResult := .ok tokB, micGranted := true, socketOpens := true }

section Lemmas

lemma clampUnit_mem (q : ℚ) : -1 ≤ clampUnit q ∧ clampUnit q ≤ 1 := by
  constructor
  · exact le_max_left _ _
  · exact max_le (by norm_num) (min_le_left _ _)

lemma truncRat_bounds {q : ℚ} (h1 : -32767 ≤ q) (h2 : q ≤ 32767) :
    -32767 ≤ truncRat q ∧ truncRat q ≤ 32767 := by
  unfold truncRat
  split
  · constructor
    · exact Int.le_floor.mpr (by exact_mod_cast h1)
    · calc ⌊q⌋ ≤ ⌊(32767 : ℚ)⌋ := Int.floor_le_floor h2
        _ = 32767 := by norm_num
  · constructor
    · have h3 : ((-32767 : ℤ) : ℚ) ≤ q := by exact_mod_cast h1
      calc (-32767 : ℤ) = ⌈((-32767 : ℤ) : ℚ)⌉ := (Int.ceil_intCast _).symm
        _ ≤ ⌈q⌉ := Int.ceil_le_ceil h3
    · exact Int.ceil_le.mpr (by exact_mod_cast h2)

lemma wrap16_eq_of_bounds {n : ℤ} (h1 : -32768 ≤ n) (h2 : n ≤ 32767) :
    wrap16 n = n := by
  unfold wrap16; omega

lemma pcmSample_eq_spec (q : ℚ) : pcmSample q = specPcmFormula q := by
  have hc := clampUnit_mem q
  have hl : -32767 ≤ clampUnit q * 32767 := by nlinarith [hc.1]
  have hr : clampUnit q * 32767 ≤ 32767 := by nlinarith [hc.2]
  have hb := truncRat_bounds hl hr
  unfold pcmSample specPcmFormula
  rw [show max (-1 : ℚ) (min 1 q) = clampUnit q from rfl]
  exact wrap16_eq_of_bounds (by omega) hb.2

lemma pcmFrameBytes_length (frame : List ℚ) :
    (pcmFrameBytes frame).length = 2 * frame.length := by
  unfold pcmFrameBytes
  induction frame with
  | nil => simp
  | cons x xs ih =>
    rw [List.map_cons, List.flatten_cons, List.length_append, ih]
    simp only [int16BytesLE, List.length_cons, List.length_nil]
    omega

lemma pcmSample_one : pcmSample 1 = 32767 := by
  rw [pcmSample_eq_spec]
  unfold specPcmFormula truncRat
  norm_num

lemma pcmSample_negOne : pcmSample (-1) = -32767 := by
  rw [pcmSample_eq_spec]
  unfold specPcmFormula truncRat
  norm_num
  rw [show ((-32767 : ℚ)) = ((-32767 : ℤ) : ℚ) by norm_num, Int.ceil_intCast]

lemma pcmSample_zero : pcmSample 0 = 0 := by
  rw [pcmSample_eq_spec]
  unfold specPcmFormula truncRat
  norm_num

lemma cachedValid_iff (s : Model) (now : ℤ) :
    cachedValid s now = true ↔ ∃ c, s.wsToken = some c ∧ now < c.expires_at := by
  cases h : s.wsToken with
  | none => simp [cachedValid, h]
  | some c => simp [cachedValid, h]

lemma init_count (env : Env) (s : Model) :
    (initializeTranscription env s).2.httpRequests =
      if cachedValid s env.now then 0 else 1 := by
  rcases env with ⟨now, fr, mic, so⟩
  rcases s with ⟨cs, tr, it, tok, f1, f2, f3, ws⟩
  rcases tok with _ | c
  · cases fr <;> cases mic <;>
      simp [initializeTranscription, credStep, cachedValid]
  · by_cases hlt : now < c.expires_at <;> cases fr <;> cases mic <;>
      simp [initializeTranscription, credStep, cachedValid, hlt]

lemma init_wsToken_fetch (env : Env) (s : Model) (c : WebSocketToken)
    (h : cachedValid s env.now = false) (hf : env.fetchResult = .ok c) :
    (initializeTranscription env s).1.wsToken = some c := by
  rcases s with ⟨cs, tr, it, tok, f1, f2, f3, ws⟩
  rcases tok with _ | c0
  · cases hm : env.micGranted <;>
      simp [initializeTranscription, credStep, hf, hm]
  · have hn : ¬ (env.now < c0.expires_at) := by
      simpa only [cachedValid, decide_eq_false_iff_not] using h
    cases hm : env.micGranted <;>
      simp [initializeTranscription, credStep, if_neg hn, hf, hm]

lemma init_wsToken_cached (env : Env) (s : Model) (c : WebSocketToken)
    (h : s.wsToken = some c) (hlt : env.now < c.expires_at) :
    (initializeTranscription env s).1.wsToken = some c := by
  rcases s with ⟨cs, tr, it, tok, f1, f2, f3, ws⟩
  have htok : tok = some c := h
  subst htok
  cases hm : env.micGranted <;>
    simp [initializeTranscription, credStep, if_pos hlt, hm]

end Lemmas

end Transcription

/-- Claim C1: PCM conversion.  Every stored sample equals
`round_toward_zero(clamp(s, -1, 1) * 32767)`; in particular input `1` gives
`32767`, input `-1` gives `-32767` (not `-32768`), and input `0` gives `0`;
a frame is emitted as two bytes per sample little-endian in capture order,
so a 4096-sample frame yields exactly 8192 bytes. -/
theorem C1_pcm_conversion :
    (∀ q : ℚ, Transcription.pcmSample q = Transcription.specPcmFormula q) ∧
    Transcription.pcmSample 1 = 32767 ∧
    Transcription.pcmSample (-1) = -32767 ∧
    Transcription.pcmSample 0 = 0 ∧
    (∀ frame : List ℚ,
      Transcription.pcmFrameBytes frame =
        (frame.map (fun q =>
          Transcription.int16BytesLE (Transcription.pcmSample q))).flatten) ∧
    (∀ frame : List ℚ, frame.length = 4096 →
      (Transcription.pcmFrameBytes frame).length = 8192) := by
  refine ⟨Transcription.pcmSample_eq_spec, Transcription.pcmSample_one,
    Transcription.pcmSample_negOne, Transcription.pcmSample_zero,
    fun _ => rfl, fun frame h => ?_⟩
  rw [Transcription.pcmFrameBytes_length, h]

/-- Witness for C1: the 8192-byte conclusion instantiated at the concrete
all-zero 4096-sample frame. -/
theorem C1_pcm_conversion_witness :
    (Transcription.pcmFrameBytes (List.replicate 4096 0)).length = 8192 :=
  C1_pcm_conversion.2.2.2.2.2 (List.replicate 4096 0)
    (by rw [List.length_replicate])

/-- Counterexample to C2 as stated: a mocked HTTP 200 response whose valid
JSON body is the empty object — not the Credential shape — makes the token
fetch succeed and return that body unvalidated, instead of failing. -/
theorem C2_token_fetch_counterexample :
    Transcription.respShapeless.ok = true ∧
    Transcription.isCredentialShape (Transcription.Json.obj []) = false ∧
    Transcription.tokenResponse Transcription.respShapeless =
      Except.ok (Transcription.Json.obj []) ∧
    Transcription.exceptIsError
      (Transcription.tokenResponse Transcription.respShapeless) = false :=
  ⟨rfl, rfl, rfl, rfl⟩

set_option maxRecDepth 20000 in
/-- Claim C2 (amended): the token fetch fails exactly when the endpoint
returns a non-success HTTP status or a response body that is not valid JSON
— the Credential shape itself is never validated — and the thrown error
embeds the HTTP status and the response body: for a mocked HTTP 401 with
JSON body carrying "invalid token", the message contains "401" and the
embedded error text. -/
theorem C2_token_fetch_errors :
    (∀ r : Transcription.HttpResponse,
      Transcription.exceptIsError (Transcription.tokenResponse r) = true ↔
        (r.ok = false ∨ r.bodyJson = none)) ∧
    Transcription.exceptIsError
      (Transcription.tokenResponse Transcription.resp401) = true ∧
    Transcription.containsText "401"
      (Transcription.exceptErrorText (Transcription.tokenResponse Transcription.resp401)) ∧
    Transcription.containsText "invalid token"
      (Transcription.exceptErrorText (Transcription.tokenResponse Transcription.resp401)) := by
  refine ⟨fun r => ?_, rfl, by unfold Transcription.containsText; decide,
    by unfold Transcription.containsText; decide⟩
  unfold Transcription.tokenResponse
  cases hok : r.ok with
  | true =>
    cases hb : r.bodyJson <;>
      simp [hok, hb, Transcription.exceptIsError]
  | false =>
    simp [hok, Transcription.exceptIsError]

/-- Claim C10: calling `fetchWebSocketToken` with the empty string as the
`authToken` override behaves identically to calling it with no argument —
the empty string does not override the configured default bearer token. -/
theorem C10_empty_token_override :
    ∀ (cfg : Transcription.ApiConfig) (r : Transcription.HttpResponse),
      Transcription.fetchWebSocketToken cfg (some "") r =
        Transcription.fetchWebSocketToken cfg none r ∧
      Transcription.resolvedBearer cfg (some "") = cfg.BEARER_TOKEN :=
  fun _ _ => ⟨rfl, rfl⟩

/-- Counterexample to C4 as stated: from a reachable state in which every
resource is held but the socket is still CONNECTING, `stopTranscription`
leaves the socket handle set (and the socket is never closed), so not every
resource handle ends up null/released. -/
theorem C4_stop_counterexample :
    (Transcription.stopTranscription Transcription.heldConnectingModel).ws =
      some Transcription.WsReadyState.connectingWs ∧
    (Transcription.stopTranscription Transcription.heldConnectingModel).ws ≠ none :=
  ⟨rfl, by decide⟩

/-- Claim C4 (amended): `stopTranscription` is total over all states and
idempotent; it nulls the audio-processor, audio-context and
microphone-stream handles and forces the connection state to `idle`; the
WebSocket is closed and its handle nulled only when its readyState is OPEN,
otherwise the socket handle is left as it was. -/
theorem C4_stop_idempotent :
    ∀ s : Transcription.Model,
      Transcription.stopTranscription (Transcription.stopTranscription s) =
        Transcription.stopTranscription s ∧
      (Transcription.stopTranscription s).audioProcessor = false ∧
      (Transcription.stopTranscription s).audioContext = false ∧
      (Transcription.stopTranscription s).audioStream = false ∧
      (Transcription.stopTranscription s).connectionState =
        Transcription.ConnectionState.idle ∧
      (Transcription.stopTranscription s).ws =
        (match s.ws with
         | some Transcription.WsReadyState.openWs => none
         | w => w) := by
  intro s
  rcases s with ⟨cs, tr, it, tok, f1, f2, f3, ws⟩
  cases f1 <;> cases f2 <;> cases f3 <;>
    rcases ws with _ | (_ | _ | _ | _) <;>
    exact ⟨rfl, rfl, rfl, rfl, rfl, rfl⟩

/-- Claim C9: `stopTranscription` never modifies the transcript buffers —
after it, the finalized sequence and the interim segment are exactly what
they were — while `clearTranscript` empties both. -/
theorem C9_stop_transcript_frame :
    ∀ s : Transcription.Model,
      (Transcription.stopTranscription s).transcript = s.transcript ∧
      (Transcription.stopTranscription s).interimTranscript = s.interimTranscript ∧
      (Transcription.clearTranscript s).transcript = [] ∧
      (Transcription.clearTranscript s).interimTranscript =
        Transcription.Json.str "" := by
  intro s
  rcases s with ⟨cs, tr, it, tok, f1, f2, f3, ws⟩
  cases f1 <;> cases f2 <;> cases f3 <;>
    rcases ws with _ | (_ | _ | _ | _) <;>
    exact ⟨rfl, rfl, rfl, rfl⟩

/-- Claim C7 (what the code actually does at the failing input): the
`ws.onclose` handler sets the connection state to `idle` but releases none
of the held audio resources — the processor, context and microphone-stream
handles survive the close event unchanged, contrary to the claim. -/
theorem C7_close_releases_nothing :
    (∀ s : Transcription.Model,
      (Transcription.wsOnClose s).connectionState =
        Transcription.ConnectionState.idle ∧
      (Transcription.wsOnClose s).audioStream = s.audioStream ∧
      (Transcription.wsOnClose s).audioContext = s.audioContext ∧
      (Transcription.wsOnClose s).audioProcessor = s.audioProcessor) ∧
    (Transcription.wsOnClose Transcription.heldOpenModel).audioStream = true ∧
    (Transcription.wsOnClose Transcription.heldOpenModel).audioContext = true ∧
    (Transcription.wsOnClose Transcription.heldOpenModel).audioProcessor = true :=
  ⟨fun _ => ⟨rfl, rfl, rfl, rfl⟩, rfl, rfl, rfl⟩

/-- Claim C8: an inbound message whose transcript is the empty string is
treated identically to a message with no transcript field — a no-op for
every state and every `is_final` value (truthiness test on the
transcript). -/
theorem C8_empty_transcript_noop :
    ∀ (s : Transcription.Model) (isf : Transcription.Json),
      Transcription.wsOnMessage (some (Transcription.emptyTranscriptMsg isf)) s =
        Transcription.wsOnMessage (some (Transcription.noTranscriptMsg isf)) s ∧
      Transcription.wsOnMessage (some (Transcription.emptyTranscriptMsg isf)) s = s :=
  fun _ _ => ⟨rfl, rfl⟩

/-- Counterexample to C5 as stated: a message carrying the transcript field
with the empty string and `is_final: true` changes nothing — the empty
transcript is neither appended to the finalized sequence nor does it clear
the interim segment. -/
theorem C5_routing_counterexample :
    Transcription.wsOnMessage
        (some (Transcription.emptyTranscriptMsg (Transcription.Json.bool true)))
        Transcription.heldOpenModel = Transcription.heldOpenModel ∧
    (Transcription.wsOnMessage
        (some (Transcription.emptyTranscriptMsg (Transcription.Json.bool true)))
        Transcription.heldOpenModel).transcript ≠
      Transcription.heldOpenModel.transcript ++ [Transcription.Json.str ""] ∧
    (Transcription.wsOnMessage
        (some (Transcription.emptyTranscriptMsg (Transcription.Json.bool true)))
        Transcription.heldOpenModel).interimTranscript ≠
      Transcription.Json.str "" := by
  refine ⟨rfl, ?_, ?_⟩
  · show ([] : List Transcription.Json) ≠ [] ++ [Transcription.Json.str ""]
    simp
  · show Transcription.Json.str "hi" ≠ Transcription.Json.str ""
    simp

/-- Claim C5 (amended): for every parsed message without a truthy `error`
field whose `channel.alternatives[0].transcript` is present and truthy (in
particular non-empty): if `is_final` is truthy the transcript is appended
to the finalized sequence and the interim segment is cleared, otherwise the
interim segment is replaced by it and the finalized sequence is unchanged;
a message without a truthy transcript changes neither. -/
theorem C5_message_routing :
    (∀ (s : Transcription.Model) (data t : Transcription.Json),
      Transcription.otruthy (Transcription.jlookup data "error") = false →
      Transcription.transcriptOf data = some t →
      t.truthy = true →
      Transcription.otruthy (Transcription.jlookup data "is_final") = true →
      Transcription.wsOnMessage (some data) s =
        { s with transcript := s.transcript ++ [t],
                 interimTranscript := Transcription.Json.str "" }) ∧
    (∀ (s : Transcription.Model) (data t : Transcription.Json),
      Transcription.otruthy (Transcription.jlookup data "error") = false →
      Transcription.transcriptOf data = some t →
      t.truthy = true →
      Transcription.otruthy (Transcription.jlookup data "is_final") = false →
      Transcription.wsOnMessage (some data) s =
        { s with interimTranscript := t }) ∧
    (∀ (s : Transcription.Model) (data : Transcription.Json),
      Transcription.otruthy (Transcription.jlookup data "error") = false →
      Transcription.otruthy (Transcription.transcriptOf data) = false →
      Transcription.wsOnMessage (some data) s = s) := by
  refine ⟨fun s data t he ht htr hf => ?_, fun s data t he ht htr hf => ?_,
    fun s data he ht => ?_⟩
  · simp [Transcription.wsOnMessage, he, ht, htr, hf]
  · simp [Transcription.wsOnMessage, he, ht, htr, hf]
  · cases hc : Transcription.transcriptOf data with
    | none => simp [Transcription.wsOnMessage, he, hc]
    | some t =>
      rw [hc] at ht
      simp only [Transcription.otruthy] at ht
      simp [Transcription.wsOnMessage, he, hc, ht]

/-- Witness for C5: the well-formed final message "hi there" delivered in
the initial state appends to the finalized sequence and clears the interim
segment. -/
theorem C5_message_routing_witness :
    Transcription.wsOnMessage (some Transcription.finalHiMsg) Transcription.baseModel =
      { Transcription.baseModel with
          transcript := Transcription.baseModel.transcript ++
            [Transcription.Json.str "hi there"],
          interimTranscript := Transcription.Json.str "" } :=
  C5_message_routing.1 Transcription.baseModel Transcription.finalHiMsg
    (Transcription.Json.str "hi there") rfl rfl rfl rfl

/-- Claim C3: from `idle`, a mocked `start()` ends `connected` when the
credential step, the microphone grant and the socket open all succeed, and
ends in `error` when any one of the ordered steps fails; the microphone is
requested only when the credential step succeeded, and the socket (with the
audio pipeline behind it) is created only when both earlier steps
succeeded. -/
theorem C3_start_ordering :
    ∀ (env : Transcription.Env) (s : Transcription.Model),
      s.connectionState = Transcription.ConnectionState.idle →
      ((Transcription.credentialOk env s = true → env.micGranted = true →
          env.socketOpens = true →
          (Transcription.runStart env s).1.connectionState =
            Transcription.ConnectionState.connected) ∧
       ((Transcription.credentialOk env s = false ∨ env.micGranted = false ∨
           env.socketOpens = false) →
          (Transcription.runStart env s).1.connectionState =
            Transcription.ConnectionState.error) ∧
       ((Transcription.runStart env s).2.micRequested = true →
          Transcription.credentialOk env s = true) ∧
       ((Transcription.runStart env s).2.socketCreated = true →
          Transcription.credentialOk env s = true ∧ env.micGranted = true)) := by
  intro env s _hidle
  rcases env with ⟨now, fr, mic, so⟩
  rcases s with ⟨cs, tr, it, tok, f1, f2, f3, ws⟩
  rcases tok with _ | c
  · rcases fr with e | c2 <;> cases mic <;> cases so <;>
      simp [Transcription.runStart, Transcription.initializeTranscription,
        Transcription.credStep, Transcription.credentialOk, Transcription.cachedValid,
        Transcription.wsOnOpen, Transcription.wsOnError]
  · by_cases hlt : now < c.expires_at <;>
      rcases fr with e | c2 <;> cases mic <;> cases so <;>
        simp [Transcription.runStart, Transcription.initializeTranscription,
          Transcription.credStep, Transcription.credentialOk, Transcription.cachedValid,
          Transcription.wsOnOpen, Transcription.wsOnError, hlt]

/-- Witness for C3: in the all-success environment the concrete idle state
ends `connected`. -/
theorem C3_start_ordering_witness :
    (Transcription.runStart Transcription.startEnv Transcription.baseModel).1.connectionState =
      Transcription.ConnectionState.connected :=
  (C3_start_ordering Transcription.startEnv Transcription.baseModel rfl).1 rfl rfl rfl

/-- Claim C6: `start()` reuses the cached credential iff its `expires_at`
is still strictly in the future; two consecutive starts within the validity
window issue exactly one grant request, and a start after expiry issues a
fresh request whose result replaces the cached credential. -/
theorem C6_credential_caching :
    (∀ (env : Transcription.Env) (s : Transcription.Model),
      (Transcription.initializeTranscription env s).2.httpRequests = 0 ↔
        ∃ c, s.wsToken = some c ∧ env.now < c.expires_at) ∧
    (∀ (env1 env2 env3 : Transcription.Env) (s : Transcription.Model)
        (c c2 : Transcription.WebSocketToken),
      s.wsToken = none →
      env1.fetchResult = .ok c →
      env2.now < c.expires_at →
      c.expires_at ≤ env3.now →
      env3.fetchResult = .ok c2 →
      (Transcription.initializeTranscription env1 s).2.httpRequests +
        (Transcription.initializeTranscription env2
          (Transcription.initializeTranscription env1 s).1).2.httpRequests = 1 ∧
      (Transcription.initializeTranscription env2
        (Transcription.initializeTranscription env1 s).1).1.wsToken = some c ∧
      (Transcription.initializeTranscription env3
        (Transcription.initializeTranscription env1 s).1).2.httpRequests = 1 ∧
      (Transcription.initializeTranscription env3
        (Transcription.initializeTranscription env1 s).1).1.wsToken = some c2) := by
  constructor
  · intro env s
    rw [Transcription.init_count, ← Transcription.cachedValid_iff]
    cases hcv : Transcription.cachedValid s env.now <;> simp [hcv]
  · intro env1 env2 env3 s c c2 h0 hf1 hlt2 hge3 hf3
    have hcv1 : Transcription.cachedValid s env1.now = false := by
      simp [Transcription.cachedValid, h0]
    have h1tok : (Transcription.initializeTranscription env1 s).1.wsToken = some c :=
      Transcription.init_wsToken_fetch env1 s c hcv1 hf1
    have h1cnt : (Transcription.initializeTranscription env1 s).2.httpRequests = 1 := by
      rw [Transcription.init_count, hcv1]; rfl
    have hcv2 : Transcription.cachedValid
        (Transcription.initializeTranscription env1 s).1 env2.now = true := by
      simp [Transcription.cachedValid, h1tok, hlt2]
    have h2cnt : (Transcription.initializeTranscription env2
        (Transcription.initializeTranscription env1 s).1).2.httpRequests = 0 := by
      rw [Transcription.init_count, hcv2]; rfl
    have hcv3 : Transcription.cachedValid
        (Transcription.initializeTranscription env1 s).1 env3.now = false := by
      simp only [Transcription.cachedValid, h1tok, decide_eq_false_iff_not]
      omega
    refine ⟨by omega, ?_, ?_, ?_⟩
    · exact Transcription.init_wsToken_cached env2 _ c h1tok hlt2
    · rw [Transcription.init_count, hcv3]; rfl
    · exact Transcription.init_wsToken_fetch env3 _ c2 hcv3 hf3

/-- Witness for C6: the concrete two-starts-then-expiry run — one request
in the validity window, a second after expiry replacing the cache. -/
theorem C6_credential_caching_witness :
    (Transcription.initializeTranscription Transcription.startEnv Transcription.baseModel).2.httpRequests +
      (Transcription.initializeTranscription Transcription.midEnv
        (Transcription.initializeTranscription Transcription.startEnv
          Transcription.baseModel).1).2.httpRequests = 1 ∧
    (Transcription.initializeTranscription Transcription.midEnv
      (Transcription.initializeTranscription Transcription.startEnv
        Transcription.baseModel).1).1.wsToken = some Transcription.tokA ∧
    (Transcription.initializeTranscription Transcription.lateEnv
      (Transcription.initializeTranscription Transcription.startEnv
        Transcription.baseModel).1).2.httpRequests = 1 ∧
    (Transcription.initializeTranscription Transcription.lateEnv
      (Transcription.initializeTranscription Transcription.startEnv
        Transcription.baseModel).1).1.wsToken = some Transcription.tokB :=
  C6_credential_caching.2 Transcription.startEnv Transcription.midEnv
    Transcription.lateEnv Transcription.baseModel Transcription.tokA
    Transcription.tokB rfl rfl (by decide) (by decide) rfl
